import Mathlib

/-!
Verification of the dspace-angular client-side data-access layer
(`DataService` and its collaborators: request tracker, normalized object
cache, change analyzer, remote-data builder).

Shallow embedding conventions:
* JS runtime values that can flow through `FindAllOptions` fields are
  modelled by `JSValue` (numbers as `Int`, since all values involved in
  the claims are small integers).
* `hasValue(x)` from `empty.util` (`typeof x !== 'undefined' && x !== null`)
  is modelled by `Option.isSome`.
* Observables that merely map a resolved endpoint string are modelled as
  pure functions of that string.
-/

/-- A JavaScript runtime value as it can appear in a `FindAllOptions` field.
Numbers are modelled as `Int` (every number in the claims is integral). -/
inductive JSValue where
  | num (n : Int)
  | str (s : String)
  | bool (b : Bool)
  | null
deriving DecidableEq, Repr

namespace JSValue

/-- JS template-literal interpolation `${v}` for the values we model. -/
def interp : JSValue → String
  | .num n => toString n
  | .str s => s
  | .bool b => if b then "true" else "false"
  | .null => "null"

/-- The JS `typeof v === 'number'` test. -/
def isNum : JSValue → Bool
  | .num _ => true
  | _ => false

end JSValue

/-- The `sort` member of `FindAllOptions` (`SortOptions`: a field name and a
direction, both interpolated into the `sort=` query argument). -/
structure SortOptions where
  field : String
  direction : String
deriving DecidableEq, Repr

/-- `FindAllOptions` from `request.models`: all members optional.
`currentPage` and `elementsPerPage` are typed `number` in TS but, being JS,
can hold any runtime value, hence `Option JSValue`. -/
structure FindAllOptions where
  currentPage : Option JSValue := none
  elementsPerPage : Option JSValue := none
  sort : Option SortOptions := none
  startsWith : Option String := none
deriving DecidableEq, Repr

/-- The `args` array built by `DataService.getFindAllHref`, in source order:
`page` is pushed only under `hasValue(options.currentPage) &&
typeof options.currentPage === 'number'` (and is translated 1-based to
0-based by `options.currentPage - 1`); `size`, `sort` and `startsWith` are
pushed under `hasValue` alone. -/
def queryArgs (options : FindAllOptions) : List String :=
  (match options.currentPage with
    | some (.num n) => ["page=" ++ toString (n - 1)]
    | some _ => []
    | none => []) ++
  (match options.elementsPerPage with
    | some v => ["size=" ++ v.interp]
    | none => []) ++
  (match options.sort with
    | some s => ["sort=" ++ s.field ++ "," ++ s.direction]
    | none => []) ++
  (match options.startsWith with
    | some sw => ["startsWith=" ++ sw]
    | none => [])

/-- Modelled from the spec: `URLCombiner(href, query).toString()` is not under
src/; per the spec scenario (`findAll({currentPage: 1, elementsPerPage: 20})`
produces `.../resource?page=0&size=20`) it appends the query string to the
endpoint URL. -/
def urlCombine (href query : String) : String :=
  href ++ query

/-- `DataService.getFindAllHref`: builds `args`, and when `args` is non-empty
returns the endpoint combined with `?` followed by `args.join('&')`, else the
bare endpoint. The abstract `getBrowseEndpoint` observable is modelled by the
resolved `endpoint` string. -/
def getFindAllHref (endpoint : String) (options : FindAllOptions) : String :=
  let args := queryArgs options
  if args.isEmpty then endpoint
  else urlCombine endpoint ("?" ++ String.intercalate "&" args)

example : getFindAllHref "http://e/resource"
    { currentPage := some (.num 1), elementsPerPage := some (.num 20) }
    = "http://e/resource?page=0&size=20" := by decide

/-- C2: For every findAll options value with currentPage and elementsPerPage
set as numbers, the generated query arguments carry `page=` currentPage − 1
(1-based caller value translated to 0-based on the wire) and `size=`
elementsPerPage; in particular `findAll({currentPage: 1, elementsPerPage: 20})`
produces a request to the endpoint with query string `?page=0&size=20`. -/
theorem getFindAllHref_page_size (opts : FindAllOptions) (p s : Int)
    (hp : opts.currentPage = some (.num p))
    (hs : opts.elementsPerPage = some (.num s)) :
    ("page=" ++ toString (p - 1)) ∈ queryArgs opts ∧
    ("size=" ++ toString s) ∈ queryArgs opts ∧
    (∀ endpoint : String,
      getFindAllHref endpoint
        { currentPage := some (.num 1), elementsPerPage := some (.num 20) }
        = endpoint ++ "?page=0&size=20") := by
  refine ⟨?_, ?_, ?_⟩
  · simp [queryArgs, hp, hs]
  · simp [queryArgs, hp, hs, JSValue.interp]
  · intro endpoint
    have hargs : queryArgs { currentPage := some (.num 1), elementsPerPage := some (.num 20) }
        = ["page=0", "size=20"] := by decide
    have hq : "?" ++ String.intercalate "&" ["page=0", "size=20"] = "?page=0&size=20" := by
      decide
    simp [getFindAllHref, hargs, urlCombine, hq]

/-- Witness for C2 at `currentPage = 1`, `elementsPerPage = 20`. -/
theorem getFindAllHref_page_size_witness :
    ("page=" ++ toString ((1 : Int) - 1)) ∈ queryArgs
      { currentPage := some (.num 1), elementsPerPage := some (.num 20) } ∧
    ("size=" ++ toString (20 : Int)) ∈ queryArgs
      { currentPage := some (.num 1), elementsPerPage := some (.num 20) } ∧
    (∀ endpoint : String,
      getFindAllHref endpoint
        { currentPage := some (.num 1), elementsPerPage := some (.num 20) }
        = endpoint ++ "?page=0&size=20") :=
  getFindAllHref_page_size
    { currentPage := some (.num 1), elementsPerPage := some (.num 20) }
    1 20 rfl rfl

/-- C8: when none of currentPage, elementsPerPage, sort, startsWith is set,
`getFindAllHref` returns the bare endpoint with no query string appended. -/
theorem getFindAllHref_no_options (endpoint : String) :
    getFindAllHref endpoint {} = endpoint := rfl

/-- C10: when currentPage has a value that is not a number, no `page` query
argument is produced (the arguments are exactly those produced with
currentPage absent), while `size`, `sort` and `startsWith` arguments are
still appended whenever their options have a value. -/
theorem getFindAllHref_nonNumber_page (opts : FindAllOptions) (v : JSValue)
    (hv : opts.currentPage = some v) (hnum : v.isNum = false) :
    queryArgs opts = queryArgs { opts with currentPage := none } ∧
    (∀ e, opts.elementsPerPage = some e → ("size=" ++ e.interp) ∈ queryArgs opts) ∧
    (∀ s, opts.sort = some s →
      ("sort=" ++ s.field ++ "," ++ s.direction) ∈ queryArgs opts) ∧
    (∀ sw, opts.startsWith = some sw →
      ("startsWith=" ++ sw) ∈ queryArgs opts) := by
  have hpage : (match opts.currentPage with
      | some (.num n) => ["page=" ++ toString (n - 1)]
      | some _ => []
      | none => ([] : List String)) = [] := by
    rw [hv]
    cases v <;> simp_all [JSValue.isNum]
  refine ⟨?_, ?_, ?_, ?_⟩
  · simp only [queryArgs, hpage]
  · intro e he; simp [queryArgs, hpage, he]
  · intro s hsrt; simp [queryArgs, hpage, hsrt]
  · intro sw hsw; simp [queryArgs, hpage, hsw]

/-- Witness for C10 at `currentPage = "oops"`, `elementsPerPage = 20`,
`sort = {field: "name", direction: "ASC"}`, `startsWith = "a"`. -/
theorem getFindAllHref_nonNumber_page_witness :
    queryArgs { currentPage := some (.str "oops"),
                elementsPerPage := some (.num 20),
                sort := some ⟨"name", "ASC"⟩, startsWith := some "a" }
      = queryArgs { currentPage := none,
                    elementsPerPage := some (.num 20),
                    sort := some ⟨"name", "ASC"⟩, startsWith := some "a" } ∧
    (∀ e, (some (JSValue.num 20) : Option JSValue) = some e →
      ("size=" ++ e.interp) ∈ queryArgs
        { currentPage := some (.str "oops"), elementsPerPage := some (.num 20),
          sort := some ⟨"name", "ASC"⟩, startsWith := some "a" }) ∧
    (∀ s, (some (⟨"name", "ASC"⟩ : SortOptions) : Option SortOptions) = some s →
      ("sort=" ++ s.field ++ "," ++ s.direction) ∈ queryArgs
        { currentPage := some (.str "oops"), elementsPerPage := some (.num 20),
          sort := some ⟨"name", "ASC"⟩, startsWith := some "a" }) ∧
    (∀ sw, (some "a" : Option String) = some sw →
      ("startsWith=" ++ sw) ∈ queryArgs
        { currentPage := some (.str "oops"), elementsPerPage := some (.num 20),
          sort := some ⟨"name", "ASC"⟩, startsWith := some "a" }) :=
  getFindAllHref_nonNumber_page
    { currentPage := some (.str "oops"), elementsPerPage := some (.num 20),
      sort := some ⟨"name", "ASC"⟩, startsWith := some "a" }
    (.str "oops") rfl rfl

/-!
## Change Analyzer and JSON patch operations

The `ChangeAnalyzer.diff` implementation is not under src/ (only its caller
`DataService.update` is), so it is modelled from the spec: a pure field-by-field
structural comparison in field declaration order, producing `Replace`
operations, empty when the versions are equal.

A normalized object is modelled as its ordered field list (declaration order),
each field a name/value pair.
-/

/-- The `op` member of a JSON `PatchOperation`. -/
inductive PatchOpKind where
  | add | remove | replace | move | copy | test
deriving DecidableEq, Repr

/-- A JSON patch operation `{op, path, value?}` (`Operation` from
fast-json-patch). -/
structure PatchOperation where
  op : PatchOpKind
  path : String
  value : Option JSValue
deriving DecidableEq, Repr

/-- A normalized object: its fields in declaration order, as name/value
pairs. -/
abbrev NormObj := List (String × JSValue)

/-- Modelled from the spec: `ChangeAnalyzer.diff(oldVersion, newVersion)` —
field-by-field structural comparison in declaration order, one `Replace`
operation at path `/field` carrying the new value for each differing field,
empty when there are no differences. -/
def diff (oldVersion newVersion : NormObj) : List PatchOperation :=
  (oldVersion.zip newVersion).filterMap fun p =>
    if p.1.2 = p.2.2 then none
    else some ⟨.replace, "/" ++ p.2.1, some p.2.2⟩

/-- Modelled from the spec: JSON-patch `Replace` at a top-level path `/name`
replaces the value of the field called `name`, leaving other fields alone. -/
def setFieldByPath (path : String) (v : JSValue) : NormObj → NormObj
  | [] => []
  | (m, w) :: rest =>
    if "/" ++ m = path then (m, v) :: rest
    else (m, w) :: setFieldByPath path v rest

/-- Modelled from the spec: applying one JSON patch operation to a normalized
object. Only `Replace` operations (the only kind `diff` emits) change the
object. -/
def applyOp (obj : NormObj) (p : PatchOperation) : NormObj :=
  match p.op, p.value with
  | .replace, some v => setFieldByPath p.path v obj
  | _, _ => obj

/-- Applying an ordered patch sequence, in append order. -/
def applyOps (ops : List PatchOperation) (obj : NormObj) : NormObj :=
  ops.foldl applyOp obj

/-- Path prefixing with `/` is injective on field names. -/
theorem slash_append_inj {a b : String} (h : "/" ++ a = "/" ++ b) : a = b := by
  have hd := congrArg String.data h
  simp [String.data_append] at hd
  exact String.ext hd

/-- `setFieldByPath` leaves the field-name skeleton unchanged. -/
theorem setFieldByPath_keys (path : String) (v : JSValue) (obj : NormObj) :
    (setFieldByPath path v obj).map Prod.fst = obj.map Prod.fst := by
  induction obj with
  | nil => rfl
  | cons hd tl ih =>
    obtain ⟨m, w⟩ := hd
    by_cases hm : "/" ++ m = path <;> simp [setFieldByPath, hm, ih]

/-- `applyOp` leaves the field-name skeleton unchanged. -/
theorem applyOp_keys (obj : NormObj) (p : PatchOperation) :
    (applyOp obj p).map Prod.fst = obj.map Prod.fst := by
  unfold applyOp
  rcases p with ⟨op, path, value⟩
  cases op <;> cases value <;> simp [setFieldByPath_keys]

/-- Every operation `diff` emits is a `Replace` at `/name` for a field name
of the new version, carrying `some` value. -/
theorem diff_ops_shape (oldV newV : NormObj) (p : PatchOperation)
    (hp : p ∈ diff oldV newV) :
    p.op = .replace ∧ ∃ m v, m ∈ newV.map Prod.fst ∧
      p.path = "/" ++ m ∧ p.value = some v := by
  unfold diff at hp
  rw [List.mem_filterMap] at hp
  obtain ⟨⟨⟨n₁, v₁⟩, ⟨n₂, v₂⟩⟩, hmem, heq⟩ := hp
  by_cases hv : v₁ = v₂
  · simp [hv] at heq
  · simp only [hv, if_false] at heq
    cases heq
    have hfst := (List.of_mem_zip hmem).2
    exact ⟨rfl, n₂, v₂, List.mem_map_of_mem Prod.fst hfst, rfl, rfl⟩


/-- A `Replace` at a path for a field other than the head field skips the
head field. -/
theorem applyOp_cons_of_ne (n : String) (a : JSValue) (xs : NormObj)
    (m : String) (v : JSValue) (hne : m ≠ n) :
    applyOp ((n, a) :: xs) ⟨.replace, "/" ++ m, some v⟩
      = (n, a) :: applyOp xs ⟨.replace, "/" ++ m, some v⟩ := by
  have hnm : ¬("/" ++ n = "/" ++ m) := fun h => hne (slash_append_inj h).symm
  simp [applyOp, setFieldByPath, hnm]

/-- Applying a sequence of `Replace` operations whose paths all target fields
of the tail leaves a head field with a fresh name untouched. -/
theorem applyOps_cons_frame (ops : List PatchOperation) (n : String) (a : JSValue) :
    ∀ xs : NormObj,
    (∀ p ∈ ops, p.op = .replace ∧ ∃ m v, m ∈ xs.map Prod.fst ∧
      p.path = "/" ++ m ∧ p.value = some v) →
    n ∉ xs.map Prod.fst →
    applyOps ops ((n, a) :: xs) = (n, a) :: applyOps ops xs := by
  induction ops with
  | nil => intro xs _ _; rfl
  | cons p ops ih =>
    intro xs hshape hn
    obtain ⟨hop, m, v, hm, hpath, hval⟩ := hshape p (List.mem_cons_self p ops)
    have hne : m ≠ n := fun h => hn (h ▸ hm)
    have hp : p = ⟨.replace, "/" ++ m, some v⟩ := by
      rcases p with ⟨op, path, value⟩
      simp_all
    have hstep : applyOp ((n, a) :: xs) p = (n, a) :: applyOp xs p := by
      rw [hp]; exact applyOp_cons_of_ne n a xs m v hne
    show applyOps ops (applyOp ((n, a) :: xs) p) = (n, a) :: applyOps ops (applyOp xs p)
    rw [hstep]
    apply ih
    · intro q hq
      obtain ⟨hop', m', v', hm', hp', hv'⟩ := hshape q (List.mem_cons_of_mem p hq)
      exact ⟨hop', m', v', by rw [applyOp_keys]; exact hm', hp', hv'⟩
    · rw [applyOp_keys]; exact hn

/-- `diff` on two objects with a common head field splits into the head
comparison followed by the diff of the tails. -/
theorem diff_cons (n : String) (a b : JSValue) (xs ys : NormObj) :
    diff ((n, a) :: xs) ((n, b) :: ys)
      = (if a = b then [] else [⟨.replace, "/" ++ n, some b⟩]) ++ diff xs ys := by
  by_cases hab : a = b <;> simp [diff, hab]

/-- `diff` of an object against itself is empty. -/
theorem diff_self (x : NormObj) : diff x x = [] := by
  induction x with
  | nil => rfl
  | cons hd tl ih =>
    obtain ⟨n, a⟩ := hd
    rw [diff_cons, ih]
    simp

/-- Applying `diff x y` to `x` yields `y`, for objects with the same field
skeleton (same names in declaration order, no duplicate field names). -/
theorem applyOps_diff (x : NormObj) : ∀ y : NormObj,
    x.map Prod.fst = y.map Prod.fst →
    (x.map Prod.fst).Nodup →
    applyOps (diff x y) x = y := by
  induction x with
  | nil =>
    intro y hk _
    cases y with
    | nil => rfl
    | cons hd tl => simp at hk
  | cons hd xs ih =>
    intro y hk hnd
    obtain ⟨n, a⟩ := hd
    cases y with
    | nil => simp at hk
    | cons hd' ys =>
      obtain ⟨m, b⟩ := hd'
      simp only [List.map_cons, List.cons.injEq] at hk
      obtain ⟨hm, hkeys⟩ := hk
      subst hm
      simp only [List.map_cons, List.nodup_cons] at hnd
      obtain ⟨hn, hnd'⟩ := hnd
      have hshape : ∀ p ∈ diff xs ys, p.op = .replace ∧ ∃ m' v', m' ∈ xs.map Prod.fst ∧
          p.path = "/" ++ m' ∧ p.value = some v' := by
        intro p hp
        obtain ⟨hop, m', v', hm', hp', hv'⟩ := diff_ops_shape xs ys p hp
        exact ⟨hop, m', v', hkeys ▸ hm', hp', hv'⟩
      rw [diff_cons]
      by_cases hab : a = b
      · subst hab
        simp only [eq_self_iff_true, if_true, List.nil_append]
        rw [applyOps_cons_frame (diff xs ys) n a xs hshape hn, ih ys hkeys hnd']
      · simp only [if_neg hab, List.cons_append, List.nil_append]
        have hfirst : applyOp ((n, a) :: xs) ⟨.replace, "/" ++ n, some b⟩
            = (n, b) :: xs := by
          simp [applyOp, setFieldByPath]
        show applyOps (diff xs ys) (applyOp ((n, a) :: xs) ⟨.replace, "/" ++ n, some b⟩)
          = (n, b) :: ys
        rw [hfirst, applyOps_cons_frame (diff xs ys) n b xs hshape hn, ih ys hkeys hnd']

/-- C9: the Change Analyzer's diff is pure and correct: `diff x x` is the
empty sequence, and for objects `x`, `y` of the same declared shape
(identical field names in declaration order, no duplicates), applying the
ordered patch sequence `diff x y` to `x` yields `y`. -/
theorem diff_correct (x y : NormObj)
    (hk : x.map Prod.fst = y.map Prod.fst)
    (hnd : (x.map Prod.fst).Nodup) :
    diff x x = [] ∧ applyOps (diff x y) x = y :=
  ⟨diff_self x, applyOps_diff x y hk hnd⟩

/-- Witness for C9 on two concrete two-field objects differing in `title`. -/
theorem diff_correct_witness :
    diff [("title", JSValue.str "old"), ("uuid", JSValue.str "u1")]
         [("title", JSValue.str "old"), ("uuid", JSValue.str "u1")] = [] ∧
    applyOps (diff [("title", JSValue.str "old"), ("uuid", JSValue.str "u1")]
                   [("title", JSValue.str "new"), ("uuid", JSValue.str "u1")])
      [("title", JSValue.str "old"), ("uuid", JSValue.str "u1")]
      = [("title", JSValue.str "new"), ("uuid", JSValue.str "u1")] :=
  diff_correct
    [("title", JSValue.str "old"), ("uuid", JSValue.str "u1")]
    [("title", JSValue.str "new"), ("uuid", JSValue.str "u1")]
    (by decide) (by decide)

/-!
## Normalized Object Cache

The object-cache reducer/service is not under src/ (only its caller
`DataService` is), so it is modelled from the spec (§4.3): an entry per
address holding the normalized `object`, the populating `requestId` and the
ordered `pendingPatches`; `put` preserves pending patches, `addPatch`
appends (creating an empty placeholder when absent), and reads materialize
pending patches over the object. TTL bookkeeping (`lastUpdated`) is not used
by any claim and is not modelled.
-/

/-- Modelled from the spec: a `CacheEntry` — the normalized object, the id of
the request that populated it, and the ordered pending patch operations. -/
structure CacheEntry where
  object : NormObj
  requestId : String
  pendingPatches : List PatchOperation
deriving DecidableEq, Repr

/-- The object cache: at most one entry per address, keyed by self link. -/
abbrev ObjectCacheState := List (String × CacheEntry)

/-- Look up the cache entry for an address. -/
def cacheLookup (st : ObjectCacheState) (address : String) : Option CacheEntry :=
  (st.find? fun p => decide (p.1 = address)).map Prod.snd

/-- Store an entry for an address, replacing the existing one if present. -/
def cacheSet (address : String) (e : CacheEntry) : ObjectCacheState → ObjectCacheState
  | [] => [(address, e)]
  | (a, e0) :: rest =>
    if a = address then (address, e) :: rest
    else (a, e0) :: cacheSet address e rest

/-- Modelled from the spec: `put(address, object, requestId)` inserts or
overwrites the `object` and `requestId`, preserving any existing
`pendingPatches`. -/
def put (st : ObjectCacheState) (address : String) (obj : NormObj)
    (requestId : String) : ObjectCacheState :=
  match cacheLookup st address with
  | some e => cacheSet address { e with object := obj, requestId := requestId } st
  | none => cacheSet address ⟨obj, requestId, []⟩ st

/-- Modelled from the spec: `addPatch(address, operations)` appends to
`pendingPatches`, creating the `CacheEntry` as an empty placeholder if
absent. -/
def addPatch (st : ObjectCacheState) (address : String)
    (operations : List PatchOperation) : ObjectCacheState :=
  match cacheLookup st address with
  | some e => cacheSet address
      { e with pendingPatches := e.pendingPatches ++ operations } st
  | none => cacheSet address ⟨[], "", operations⟩ st

/-- Modelled from the spec: reads apply `pendingPatches` over `object` before
returning a materialized view (`ObjectCacheService.getBySelfLink`). -/
def getBySelfLink (st : ObjectCacheState) (address : String) : Option NormObj :=
  (cacheLookup st address).map fun e => applyOps e.pendingPatches e.object

/-- Looking up the address just stored finds the stored entry. -/
theorem cacheLookup_cacheSet_self (address : String) (e : CacheEntry) :
    ∀ st : ObjectCacheState, cacheLookup (cacheSet address e st) address = some e := by
  intro st
  induction st with
  | nil => simp [cacheSet, cacheLookup, List.find?]
  | cons hd rest ih =>
    obtain ⟨a, e0⟩ := hd
    by_cases ha : a = address
    · simp [cacheSet, ha, cacheLookup, List.find?]
    · simpa [cacheSet, ha, cacheLookup, List.find?] using ih

/-- C6: for every address with an existing `CacheEntry`, `put` overwrites the
`object` and `requestId` fields and leaves the existing `pendingPatches` of
that entry unchanged. -/
theorem put_preserves_pendingPatches (st : ObjectCacheState) (address : String)
    (obj : NormObj) (requestId : String) (e : CacheEntry)
    (h : cacheLookup st address = some e) :
    cacheLookup (put st address obj requestId) address
      = some ⟨obj, requestId, e.pendingPatches⟩ := by
  unfold put
  rw [h]
  exact cacheLookup_cacheSet_self address _ st

/-- Witness for C6: a network write over an entry with one pending patch
keeps that patch. -/
theorem put_preserves_pendingPatches_witness :
    cacheLookup
      (put [("http://e/r/1",
             ⟨[("title", JSValue.str "old")], "r0",
              [⟨.replace, "/title", some (JSValue.str "local")⟩]⟩)]
        "http://e/r/1" [("title", JSValue.str "server")] "r1")
      "http://e/r/1"
      = some ⟨[("title", JSValue.str "server")], "r1",
              [⟨.replace, "/title", some (JSValue.str "local")⟩]⟩ :=
  put_preserves_pendingPatches
    [("http://e/r/1",
      ⟨[("title", JSValue.str "old")], "r0",
       [⟨.replace, "/title", some (JSValue.str "local")⟩]⟩)]
    "http://e/r/1" [("title", JSValue.str "server")] "r1"
    ⟨[("title", JSValue.str "old")], "r0",
     [⟨.replace, "/title", some (JSValue.str "local")⟩]⟩
    (by decide)

/-- C7: after `addPatch(addr, ops)`, a subsequent read of `addr` returns the
materialized view with `ops` applied in append order over the last known
materialized object (local read-your-writes, before any flush). -/
theorem addPatch_read_your_writes (st : ObjectCacheState) (address : String)
    (ops : List PatchOperation) (view : NormObj)
    (h : getBySelfLink st address = some view) :
    getBySelfLink (addPatch st address ops) address = some (applyOps ops view) := by
  unfold getBySelfLink at h ⊢
  cases hc : cacheLookup st address with
  | none => rw [hc] at h; simp at h
  | some e =>
    rw [hc] at h
    simp at h
    unfold addPatch
    rw [hc, cacheLookup_cacheSet_self]
    simp only [Option.map, Option.some.injEq]
    rw [← h]
    unfold applyOps
    rw [List.foldl_append]

/-- Witness for C7: one pending patch already queued, one new patch added. -/
theorem addPatch_read_your_writes_witness :
    getBySelfLink
      (addPatch [("http://e/r/1",
                  ⟨[("title", JSValue.str "old"), ("abstract", JSValue.null)], "r0",
                   [⟨.replace, "/abstract", some (JSValue.str "a")⟩]⟩)]
        "http://e/r/1" [⟨.replace, "/title", some (JSValue.str "new")⟩])
      "http://e/r/1"
      = some (applyOps [⟨.replace, "/title", some (JSValue.str "new")⟩]
          [("title", JSValue.str "old"), ("abstract", JSValue.str "a")]) :=
  addPatch_read_your_writes
    [("http://e/r/1",
      ⟨[("title", JSValue.str "old"), ("abstract", JSValue.null)], "r0",
       [⟨.replace, "/abstract", some (JSValue.str "a")⟩]⟩)]
    "http://e/r/1" [⟨.replace, "/title", some (JSValue.str "new")⟩]
    [("title", JSValue.str "old"), ("abstract", JSValue.str "a")]
    (by decide)

/-!
## `DataService.update`

`update(object)` reads the cached old version via `getBySelfLink(object.self)`,
normalizes the given object, diffs the two with the Change Analyzer, and —
only when `isNotEmpty(operations)` — adds the patch to the object cache. The
trailing `findById` re-read configures a GET request but does not mutate the
object cache, so `update`'s cache effect is exactly the conditional
`addPatch`.
-/

/-- A domain object (`CacheableObject`): its self link, its uuid, and —
modelled from the spec, since `NormalizedObjectBuildService.normalize` is a
pure total function not under src/ — its normalized representation. -/
structure DomainObject where
  self : String
  uuid : String
  normalized : NormObj
deriving DecidableEq, Repr

/-- Modelled from the spec: `normalize(domainObject) -> NormalizedObject` (here `normalizeObject`),
pure and total. -/
def normalizeObject (object : DomainObject) : NormObj :=
  object.normalized

/-- The object-cache effect of `DataService.update`. -/
def update (st : ObjectCacheState) (object : DomainObject) : ObjectCacheState :=
  match getBySelfLink st object.self with
  | none => st
  | some oldVersion =>
    let newVersion := normalizeObject object
    let operations := diff oldVersion newVersion
    if operations.isEmpty then st
    else addPatch st object.self operations

/-- A common field prefix contributes nothing to the diff. -/
theorem diff_append_left (pre x y : NormObj) :
    diff (pre ++ x) (pre ++ y) = diff x y := by
  unfold diff
  rw [List.zip_append rfl, List.filterMap_append]
  have h := diff_self pre
  unfold diff at h
  rw [h, List.nil_append]

/-- When two objects differ exactly at one field, the diff is the single
`Replace` at that field's path with the new value. -/
theorem diff_single_field (pre post : NormObj) (a b : JSValue)
    (hab : a ≠ b) :
    diff (pre ++ ("title", a) :: post) (pre ++ ("title", b) :: post)
      = [⟨.replace, "/title", some b⟩] := by
  have hpath : ("/" ++ "title" : String) = "/title" := by decide
  rw [diff_append_left, diff_cons, if_neg hab, diff_self, hpath, List.append_nil]

/-!
## Request Tracker

`RequestService.configure` and the request reducer are not under src/ (only
their callers are), so the tracker is modelled from the spec (§3, §4.2): an
entry per dispatched call; `configure` looks up an existing entry for the
same address that is `Pending` or terminal-and-not-stale, transparently
reuses it without dispatching when found, and otherwise dispatches through
the transport and stores a fresh `Pending` entry; completion transitions the
entry exactly once to a terminal state with `completed = true`. The default
staleness policy is "never auto-expire, explicit invalidation only",
modelled by a `stale` flag set by `invalidateByAddress`.
-/

/-- The transport's eventual `Response{isSuccessful, errorMessage, payload}`. -/
structure RestResponse where
  isSuccessful : Bool
  errorMessage : Option String
  payload : Option NormObj
deriving DecidableEq, Repr

/-- The `state` of a `RequestEntry`: `Pending | ResponseSuccess |
ResponseError`, carrying the response once terminal. -/
inductive ReqState where
  | pending
  | responseSuccess (response : RestResponse)
  | responseError (response : RestResponse)
deriving DecidableEq, Repr

/-- Modelled from the spec: a `RequestEntry` — tracker-generated `id`, target
`address`, lifecycle `state`, `completed` flag, and the staleness mark used
by explicit invalidation. -/
structure RequestEntry where
  id : String
  address : String
  state : ReqState
  completed : Bool
  stale : Bool
deriving DecidableEq, Repr

/-- The request tracker's store: one entry per dispatched call. -/
structure TrackerState where
  entries : List RequestEntry
deriving DecidableEq, Repr

/-- An existing entry is acceptable for reuse when it targets the same
address and is `Pending`, or terminal and not marked stale. -/
def isAcceptable (address : String) (e : RequestEntry) : Bool :=
  decide (e.address = address ∧ (e.state = .pending ∨ e.stale = false))

/-- The dedup lookup at the heart of `configure`. -/
def findExisting (st : TrackerState) (address : String) : Option RequestEntry :=
  st.entries.find? (isAcceptable address)

/-- The outcome of one `configure` call: the new tracker state, whether a
transport dispatch was issued, and the `RequestEntry` the caller observes. -/
structure ConfigureResult where
  tracker : TrackerState
  dispatched : Bool
  observed : RequestEntry
deriving DecidableEq, Repr

/-- Modelled from the spec: `configure(request)` — if an acceptable entry for
the address exists, do not dispatch again and observe it transparently;
otherwise dispatch through the transport and store a fresh `Pending` entry
keyed by the generated id. -/
def configure (st : TrackerState) (id address : String) : ConfigureResult :=
  match findExisting st address with
  | some e => ⟨st, false, e⟩
  | none =>
    let e : RequestEntry := ⟨id, address, .pending, false, false⟩
    ⟨⟨st.entries ++ [e]⟩, true, e⟩

/-- Modelled from the spec: on transport completion the `Pending` entry for
the id transitions to `ResponseSuccess` or `ResponseError` and `completed`
becomes true; terminal entries are never transitioned again. -/
def completeRequest (st : TrackerState) (id : String) (response : RestResponse) :
    TrackerState :=
  ⟨st.entries.map fun e =>
    if e.id = id ∧ e.state = .pending then
      { e with
        state := if response.isSuccessful then .responseSuccess response
                 else .responseError response,
        completed := true }
    else e⟩

/-- `getById(id)`: the entry a subscriber for `id` observes. -/
def getById (st : TrackerState) (id : String) : Option RequestEntry :=
  st.entries.find? fun e => decide (e.id = id)

/-- Appending an entry with a fresh id does not change what other finds see;
the new entry is found when nothing before it matches. -/
theorem find_append_single {p : RequestEntry → Bool} (l : List RequestEntry)
    (e : RequestEntry) (h : l.find? p = none) (he : p e = true) :
    (l ++ [e]).find? p = some e := by
  induction l with
  | nil => simp [List.find?, he]
  | cons hd tl ih =>
    rw [List.find?] at h
    cases hp : p hd with
    | true => rw [hp] at h; simp at h
    | false =>
      rw [hp] at h
      simpa [List.find?, hp] using ih h

/-- C1: within one pending window for an address (no acceptable entry exists
yet, and the generated id is fresh), the first `configure` dispatches exactly
one transport call; a second, overlapping `configure` for the same address
issues no dispatch and observes the same in-flight pending `RequestEntry`;
and after the transport completes, both callers' `getById` streams observe
the same terminal entry, carrying the single response. -/
theorem configure_dedup (st0 : TrackerState) (address id1 id2 : String)
    (response : RestResponse)
    (h0 : findExisting st0 address = none)
    (hid : ∀ e ∈ st0.entries, e.id ≠ id1) :
    (configure st0 id1 address).dispatched = true ∧
    (configure (configure st0 id1 address).tracker id2 address).dispatched = false ∧
    (configure (configure st0 id1 address).tracker id2 address).observed
      = (configure st0 id1 address).observed ∧
    (configure st0 id1 address).observed.state = ReqState.pending ∧
    getById (completeRequest (configure st0 id1 address).tracker id1 response)
        (configure (configure st0 id1 address).tracker id2 address).observed.id
      = getById (completeRequest (configure st0 id1 address).tracker id1 response)
        (configure st0 id1 address).observed.id ∧
    getById (completeRequest (configure st0 id1 address).tracker id1 response) id1
      = some ⟨id1, address,
          if response.isSuccessful then ReqState.responseSuccess response
          else ReqState.responseError response, true, false⟩ := by
  have hr1 : configure st0 id1 address
      = ⟨⟨st0.entries ++ [⟨id1, address, .pending, false, false⟩]⟩, true,
         ⟨id1, address, .pending, false, false⟩⟩ := by
    unfold configure
    rw [h0]
  have hacc : isAcceptable address ⟨id1, address, .pending, false, false⟩ = true := by
    simp [isAcceptable]
  have hfind2 : findExisting ⟨st0.entries ++ [⟨id1, address, .pending, false, false⟩]⟩
      address = some ⟨id1, address, .pending, false, false⟩ :=
    find_append_single st0.entries _ h0 hacc
  have hr2 : configure (configure st0 id1 address).tracker id2 address
      = ⟨(configure st0 id1 address).tracker, false,
         ⟨id1, address, .pending, false, false⟩⟩ := by
    rw [hr1]
    unfold configure
    rw [hfind2]
  have hterm : getById (completeRequest (configure st0 id1 address).tracker id1 response) id1
      = some ⟨id1, address,
          if response.isSuccessful then ReqState.responseSuccess response
          else ReqState.responseError response, true, false⟩ := by
    rw [hr1]
    unfold completeRequest getById
    simp only [List.map_append, List.map_cons, List.map_nil]
    have hnone : (st0.entries.map fun e =>
        if e.id = id1 ∧ e.state = ReqState.pending then
          { e with
            state := if response.isSuccessful then ReqState.responseSuccess response
                     else ReqState.responseError response,
            completed := true }
        else e).find? (fun e => decide (e.id = id1)) = none := by
      rw [List.find?_eq_none]
      intro x hx
      obtain ⟨e, he, rfl⟩ := List.mem_map.mp hx
      have hne : ¬(e.id = id1 ∧ e.state = ReqState.pending) := fun hcon => hid e he hcon.1
      simp [hne, hid e he]
    have hlast : (fun (e : RequestEntry) => decide (e.id = id1))
        (if (⟨id1, address, .pending, false, false⟩ : RequestEntry).id = id1 ∧
            (⟨id1, address, .pending, false, false⟩ : RequestEntry).state = ReqState.pending
         then { (⟨id1, address, .pending, false, false⟩ : RequestEntry) with
                state := if response.isSuccessful then ReqState.responseSuccess response
                         else ReqState.responseError response,
                completed := true }
         else ⟨id1, address, .pending, false, false⟩) = true := by
      simp
    have := find_append_single
      (st0.entries.map fun e =>
        if e.id = id1 ∧ e.state = ReqState.pending then
          { e with
            state := if response.isSuccessful then ReqState.responseSuccess response
                     else ReqState.responseError response,
            completed := true }
        else e) _ hnone hlast
    simpa using this
  refine ⟨by rw [hr1], by rw [hr2], by rw [hr2, hr1], by rw [hr1], ?_, hterm⟩
  rw [hr2, hr1]

/-- Witness for C1: two overlapping configure calls for the same address on
an empty tracker, completed with a successful response. -/
theorem configure_dedup_witness :
    (configure ⟨[]⟩ "req-1" "http://e/r/42").dispatched = true ∧
    (configure (configure ⟨[]⟩ "req-1" "http://e/r/42").tracker
        "req-2" "http://e/r/42").dispatched = false ∧
    (configure (configure ⟨[]⟩ "req-1" "http://e/r/42").tracker
        "req-2" "http://e/r/42").observed
      = (configure ⟨[]⟩ "req-1" "http://e/r/42").observed ∧
    (configure ⟨[]⟩ "req-1" "http://e/r/42").observed.state = ReqState.pending ∧
    getById (completeRequest (configure ⟨[]⟩ "req-1" "http://e/r/42").tracker
        "req-1" ⟨true, none, some [("id", JSValue.str "42")]⟩)
        (configure (configure ⟨[]⟩ "req-1" "http://e/r/42").tracker
          "req-2" "http://e/r/42").observed.id
      = getById (completeRequest (configure ⟨[]⟩ "req-1" "http://e/r/42").tracker
          "req-1" ⟨true, none, some [("id", JSValue.str "42")]⟩)
          (configure ⟨[]⟩ "req-1" "http://e/r/42").observed.id ∧
    getById (completeRequest (configure ⟨[]⟩ "req-1" "http://e/r/42").tracker
        "req-1" ⟨true, none, some [("id", JSValue.str "42")]⟩) "req-1"
      = some ⟨"req-1", "http://e/r/42",
          if (⟨true, none, some [("id", JSValue.str "42")]⟩ : RestResponse).isSuccessful
          then ReqState.responseSuccess ⟨true, none, some [("id", JSValue.str "42")]⟩
          else ReqState.responseError ⟨true, none, some [("id", JSValue.str "42")]⟩,
          true, false⟩ :=
  configure_dedup ⟨[]⟩ "http://e/r/42" "req-1" "req-2"
    ⟨true, none, some [("id", JSValue.str "42")]⟩
    (by decide) (by simp)

/-!
## `DataService.delete`

From src/: `delete(dso)` generates a request id, resolves
`getIDHref(endpoint, dso.uuid)`, configures a `DeleteByIDRequest`, and
returns `getByUUID(requestId).find(completed).map(response.isSuccessful)`.
It performs no object-cache operation at all, so the cache entry for the
object's address is untouched whatever the transport reports.
-/

/-- `DataService.getIDHref`: the HREF for a specific object,
`${endpoint}/${resourceID}`. -/
def getIDHref (endpoint resourceID : String) : String :=
  endpoint ++ "/" ++ resourceID

/-- The combined state `DataService` operations act on: the request
tracker's store and the object cache. -/
structure DataWorld where
  tracker : TrackerState
  cache : ObjectCacheState
deriving DecidableEq, Repr

/-- The synchronous state effect of `DataService.delete`: configure a
`DeleteByIDRequest` for `getIDHref(endpoint, dso.uuid)`; the object cache is
not touched. -/
def deleteConfigure (w : DataWorld) (endpoint : String) (dso : DomainObject)
    (requestId : String) : DataWorld :=
  { w with tracker :=
      (configure w.tracker requestId (getIDHref endpoint dso.uuid)).tracker }

/-- `request.response.isSuccessful` for a tracked entry. -/
def entryIsSuccessful (e : RequestEntry) : Bool :=
  match e.state with
  | .pending => false
  | .responseSuccess r => r.isSuccessful
  | .responseError r => r.isSuccessful

/-- The boolean stream `delete` returns: over the successive tracker states a
subscriber observes, take the first emitted entry state for the request id
with `completed` true, mapped to `response.isSuccessful`
(`find(completed).map(isSuccessful)`). -/
def deleteResult (states : List TrackerState) (requestId : String) : Option Bool :=
  ((states.filterMap fun st => getById st requestId).find? fun e => e.completed).map
    entryIsSuccessful

/-- A freshly appended entry is what `getById` finds for its id. -/
theorem getById_append_fresh (entries : List RequestEntry) (e : RequestEntry)
    (hid : ∀ x ∈ entries, x.id ≠ e.id) :
    getById ⟨entries ++ [e]⟩ e.id = some e := by
  unfold getById
  apply find_append_single
  · rw [List.find?_eq_none]
    intro x hx
    simp [hid x hx]
  · simp

/-- Completing the freshly appended pending entry yields the terminal entry
`getById` then finds for its id. -/
theorem getById_complete_append (entries : List RequestEntry)
    (id address : String) (response : RestResponse)
    (hid : ∀ x ∈ entries, x.id ≠ id) :
    getById (completeRequest ⟨entries ++ [⟨id, address, .pending, false, false⟩]⟩
        id response) id
      = some ⟨id, address,
          if response.isSuccessful then .responseSuccess response
          else .responseError response, true, false⟩ := by
  unfold completeRequest getById
  simp only [List.map_append, List.map_cons, List.map_nil]
  apply find_append_single
  · rw [List.find?_eq_none]
    intro x hx
    obtain ⟨e, he, rfl⟩ := List.mem_map.mp hx
    have hne : ¬(e.id = id ∧ e.state = ReqState.pending) := fun hcon => hid e he hcon.1
    simp [hne, hid e he]
  · simp

/-- C5: when the transport reports failure for a `delete(dso)` call (fresh
request id, no acceptable in-flight entry for the target address), the
returned boolean stream reaches the terminal value `false` — the
`isSuccessful` flag of the first completed `RequestEntry` for the generated
request id — and the object cache (hence the `CacheEntry` for the object's
address) is left entirely unchanged. -/
theorem delete_transport_failure (w : DataWorld) (endpoint : String)
    (dso : DomainObject) (requestId msg : String)
    (h0 : findExisting w.tracker (getIDHref endpoint dso.uuid) = none)
    (hid : ∀ e ∈ w.tracker.entries, e.id ≠ requestId) :
    deleteResult
      [(deleteConfigure w endpoint dso requestId).tracker,
       completeRequest (deleteConfigure w endpoint dso requestId).tracker
         requestId ⟨false, some msg, none⟩] requestId
      = some false ∧
    (deleteConfigure w endpoint dso requestId).cache = w.cache := by
  constructor
  · have htr : (deleteConfigure w endpoint dso requestId).tracker
        = ⟨w.tracker.entries
            ++ [⟨requestId, getIDHref endpoint dso.uuid, .pending, false, false⟩]⟩ := by
      unfold deleteConfigure configure
      rw [h0]
    have hpend : getById (deleteConfigure w endpoint dso requestId).tracker requestId
        = some ⟨requestId, getIDHref endpoint dso.uuid, .pending, false, false⟩ := by
      rw [htr]
      exact getById_append_fresh w.tracker.entries _ (by intro x hx; exact hid x hx)
    have hdone : getById (completeRequest
          (deleteConfigure w endpoint dso requestId).tracker requestId
          ⟨false, some msg, none⟩) requestId
        = some ⟨requestId, getIDHref endpoint dso.uuid,
            .responseError ⟨false, some msg, none⟩, true, false⟩ := by
      rw [htr]
      simpa using getById_complete_append w.tracker.entries requestId
        (getIDHref endpoint dso.uuid) ⟨false, some msg, none⟩ hid
    unfold deleteResult
    rw [List.filterMap_cons, List.filterMap_cons, List.filterMap_nil, hpend, hdone]
    simp [List.find?, entryIsSuccessful]
  · rfl

/-- Witness for C5: deleting uuid 42 on an empty world, transport failing. -/
theorem delete_transport_failure_witness :
    deleteResult
      [(deleteConfigure ⟨⟨[]⟩, []⟩ "http://e/items"
          ⟨"http://e/items/42", "42", []⟩ "req-9").tracker,
       completeRequest (deleteConfigure ⟨⟨[]⟩, []⟩ "http://e/items"
           ⟨"http://e/items/42", "42", []⟩ "req-9").tracker
         "req-9" ⟨false, some "500 Internal Server Error", none⟩] "req-9"
      = some false ∧
    (deleteConfigure ⟨⟨[]⟩, []⟩ "http://e/items"
        ⟨"http://e/items/42", "42", []⟩ "req-9").cache = [] :=
  delete_transport_failure ⟨⟨[]⟩, []⟩ "http://e/items"
    ⟨"http://e/items/42", "42", []⟩ "req-9" "500 Internal Server Error"
    (by decide) (by simp)

/-!
## Error propagation across the public operations

The RxJS stream machinery and the Remote-Data Builder are not under src/, so
the read-model projection is modelled from the spec (§4.5, §7): `Pending`
projects to loading; a terminal `ResponseError` surfaces `errorMessage` with
`hasFailed`; a successful response whose payload fails to deserialize is a
terminal error for that request. Collaborators report failure as values —
the transport with `isSuccessful = false`, endpoint resolution as a stream
that never emits (`none`), payload deserialization as `Except.error` — never
as exceptions (spec §6, §7). Each public operation is embedded in an
explicit exception monad (`Except String`): any synchronous JS `throw` in
the translated body would surface as `.error`.
-/

/-- The `RemoteData` read-model. -/
structure RemoteData where
  isLoading : Bool
  hasSucceeded : Bool
  hasFailed : Bool
  errorMessage : Option String
  payload : Option NormObj
deriving DecidableEq, Repr

/-- Modelled from the spec: the Remote-Data Builder's projection of a
`RequestEntry` (plus the deserialization outcome of a successful payload)
into `RemoteData`. -/
def buildRemoteData (e : RequestEntry) (deser : Except String NormObj) : RemoteData :=
  match e.state with
  | .pending => ⟨true, false, false, none, none⟩
  | .responseSuccess _ =>
    match deser with
    | .ok obj => ⟨false, true, false, none, some obj⟩
    | .error m => ⟨false, false, true, some m, none⟩
  | .responseError r => ⟨false, false, true, r.errorMessage, none⟩

/-- The collaborator outcomes a public operation can encounter: endpoint
resolution may miss (never emits), the transport eventually reports success
or failure, and deserializing a successful payload may fail. -/
structure Collaborators where
  endpoint : Option String
  transport : RestResponse
  deser : Except String NormObj
deriving Repr

/-- Modelled from the spec: the serializer collaborator
(`DSpaceRESTv2Serializer.serialize`), pure and total over supported entity
kinds. -/
def serialize (obj : NormObj) : String :=
  String.intercalate "," (obj.map fun f => f.1 ++ ":" ++ f.2.interp)

/-- `DataService.findAll`: resolve the findAll href, configure, and project
the tracked entry after completion; resolution miss means no dispatch and a
stream that keeps observing (`none` terminal). -/
def runFindAll (c : Collaborators) (w : DataWorld) (requestId : String)
    (options : FindAllOptions) : Except String (DataWorld × Option RemoteData) :=
  match c.endpoint with
  | none => .ok (w, none)
  | some endpoint =>
    let href := getFindAllHref endpoint options
    let r := configure w.tracker requestId href
    let tr2 := completeRequest r.tracker r.observed.id c.transport
    .ok ({ w with tracker := tr2 },
         (getById tr2 r.observed.id).map fun e => buildRemoteData e c.deser)

/-- `DataService.findById`: resolve `getIDHref(endpoint, id)`, configure, and
project the tracked entry after completion. -/
def runFindById (c : Collaborators) (w : DataWorld) (requestId objId : String) :
    Except String (DataWorld × Option RemoteData) :=
  match c.endpoint with
  | none => .ok (w, none)
  | some endpoint =>
    let href := getIDHref endpoint objId
    let r := configure w.tracker requestId href
    let tr2 := completeRequest r.tracker r.observed.id c.transport
    .ok ({ w with tracker := tr2 },
         (getById tr2 r.observed.id).map fun e => buildRemoteData e c.deser)

/-- `DataService.findByHref`: configure a GET for the given href directly
(no resolution step) and project the tracked entry after completion. -/
def runFindByHref (c : Collaborators) (w : DataWorld) (requestId href : String) :
    Except String (DataWorld × Option RemoteData) :=
  let r := configure w.tracker requestId href
  let tr2 := completeRequest r.tracker r.observed.id c.transport
  .ok ({ w with tracker := tr2 },
       (getById tr2 r.observed.id).map fun e => buildRemoteData e c.deser)

/-- `DataService.update`: a cache miss on the old version means the stream
never emits and nothing is dispatched; otherwise the conditional `addPatch`
(see `update`) followed by the `findById` re-read. -/
def runUpdate (c : Collaborators) (w : DataWorld) (requestId : String)
    (object : DomainObject) : Except String (DataWorld × Option RemoteData) :=
  match getBySelfLink w.cache object.self with
  | none => .ok (w, none)
  | some _ =>
    runFindById c { w with cache := update w.cache object } requestId object.uuid

/-- `DataService.create`: serialize the normalized object (pure, total),
configure a `CreateRequest` against the resolved endpoint, and project the
tracked entry after completion; an error response is reported to the
notification collaborator and surfaces as the stream's failed state. -/
def runCreate (c : Collaborators) (w : DataWorld) (requestId : String)
    (dso : DomainObject) : Except String (DataWorld × Option RemoteData) :=
  match c.endpoint with
  | none => .ok (w, none)
  | some endpoint =>
    let _body := serialize (normalizeObject dso)
    let r := configure w.tracker requestId endpoint
    let tr2 := completeRequest r.tracker r.observed.id c.transport
    .ok ({ w with tracker := tr2 },
         (getById tr2 r.observed.id).map fun e => buildRemoteData e c.deser)

/-- `DataService.delete`: the configure step of `deleteConfigure` followed by
the boolean stream `deleteResult` over the observed tracker states. -/
def runDelete (c : Collaborators) (w : DataWorld) (requestId : String)
    (dso : DomainObject) : Except String (DataWorld × Option Bool) :=
  match c.endpoint with
  | none => .ok (w, none)
  | some endpoint =>
    let w1 := deleteConfigure w endpoint dso requestId
    let tr2 := completeRequest w1.tracker requestId c.transport
    .ok ({ w1 with tracker := tr2 }, deleteResult [w1.tracker, tr2] requestId)

/-- `DataService.patch`: `objectCache.addPatch(href, operations)`, nothing
else. -/
def runPatch (w : DataWorld) (href : String)
    (operations : List PatchOperation) : Except String DataWorld :=
  .ok { w with cache := addPatch w.cache href operations }

/-- Whether an embedded operation completed without a synchronous throw. -/
def exceptOk {α : Type} : Except String α → Bool
  | .ok _ => true
  | .error _ => false

/-- The terminal read-model of an embedded RemoteData operation, `none` when
the operation threw synchronously. -/
def terminalOf : Except String (DataWorld × Option RemoteData) → Option (Option RemoteData)
  | .ok x => some x.2
  | .error _ => none

/-- The terminal value of the embedded delete operation, `none` when the
operation threw synchronously. -/
def boolTerminalOf : Except String (DataWorld × Option Bool) → Option (Option Bool)
  | .ok x => some x.2
  | .error _ => none

/-- After a fresh configure and a failing completion, the projected terminal
read-model is the failed `RemoteData` carrying the transport's error
message. -/
theorem terminal_failed_of_fresh (st : TrackerState) (id href : String)
    (resp : RestResponse) (deser : Except String NormObj)
    (h0 : findExisting st href = none)
    (hid : ∀ e ∈ st.entries, e.id ≠ id)
    (hfail : resp.isSuccessful = false) :
    ((getById (completeRequest (configure st id href).tracker
        (configure st id href).observed.id resp)
        (configure st id href).observed.id).map
      fun e => buildRemoteData e deser)
      = some ⟨false, false, true, resp.errorMessage, none⟩ := by
  have hr : configure st id href
      = ⟨⟨st.entries ++ [⟨id, href, .pending, false, false⟩]⟩, true,
         ⟨id, href, .pending, false, false⟩⟩ := by
    unfold configure
    rw [h0]
  rw [hr]
  simp only
  rw [getById_complete_append st.entries id href resp hid]
  simp [hfail, buildRemoteData]

/-- The boolean stream over the configure state and the completed state
emits the response's `isSuccessful` flag. -/
theorem deleteResult_configure_complete (st : TrackerState) (href requestId : String)
    (r : RestResponse)
    (h0 : findExisting st href = none)
    (hid : ∀ e ∈ st.entries, e.id ≠ requestId) :
    deleteResult [(configure st requestId href).tracker,
      completeRequest (configure st requestId href).tracker requestId r] requestId
      = some r.isSuccessful := by
  have hr : configure st requestId href
      = ⟨⟨st.entries ++ [⟨requestId, href, .pending, false, false⟩]⟩, true,
         ⟨requestId, href, .pending, false, false⟩⟩ := by
    unfold configure
    rw [h0]
  rw [hr]
  simp only
  have hpend := getById_append_fresh st.entries
    ⟨requestId, href, .pending, false, false⟩ (by intro x hx; exact hid x hx)
  have hdone := getById_complete_append st.entries requestId href r hid
  unfold deleteResult
  rw [List.filterMap_cons, List.filterMap_cons, List.filterMap_nil, hpend, hdone]
  cases hs : r.isSuccessful <;>
    simp [List.find?, entryIsSuccessful, hs]

/-- C4: no public operation throws synchronously, for every input and every
collaborator failure mode (the first conjunct quantifies over all
collaborator configurations — transport error, resolution miss,
deserialization failure — and all states); and when the transport fails, the
failure is observed only through the returned stream: the terminal
`RemoteData` of findAll, findById, findByHref and create has
`hasFailed = true` with the transport's `errorMessage`, and delete's stream
terminates with `false`. -/
theorem public_ops_no_sync_throw (c : Collaborators) (w : DataWorld)
    (requestId objId flink phref ep : String) (options : FindAllOptions)
    (dso object : DomainObject) (operations : List PatchOperation)
    (hep : c.endpoint = some ep)
    (hfail : c.transport.isSuccessful = false)
    (hid : ∀ e ∈ w.tracker.entries, e.id ≠ requestId)
    (h1 : findExisting w.tracker (getFindAllHref ep options) = none)
    (h2 : findExisting w.tracker (getIDHref ep objId) = none)
    (h3 : findExisting w.tracker flink = none)
    (h4 : findExisting w.tracker ep = none)
    (h5 : findExisting w.tracker (getIDHref ep dso.uuid) = none) :
    (∀ (cany : Collaborators) (wany : DataWorld),
      exceptOk (runFindAll cany wany requestId options) = true ∧
      exceptOk (runFindById cany wany requestId objId) = true ∧
      exceptOk (runFindByHref cany wany requestId flink) = true ∧
      exceptOk (runUpdate cany wany requestId object) = true ∧
      exceptOk (runCreate cany wany requestId dso) = true ∧
      exceptOk (runDelete cany wany requestId dso) = true ∧
      exceptOk (runPatch wany phref operations) = true) ∧
    terminalOf (runFindAll c w requestId options)
      = some (some ⟨false, false, true, c.transport.errorMessage, none⟩) ∧
    terminalOf (runFindById c w requestId objId)
      = some (some ⟨false, false, true, c.transport.errorMessage, none⟩) ∧
    terminalOf (runFindByHref c w requestId flink)
      = some (some ⟨false, false, true, c.transport.errorMessage, none⟩) ∧
    terminalOf (runCreate c w requestId dso)
      = some (some ⟨false, false, true, c.transport.errorMessage, none⟩) ∧
    boolTerminalOf (runDelete c w requestId dso) = some (some false) := by
  refine ⟨?_, ?_, ?_, ?_, ?_, ?_⟩
  · intro cany wany
    refine ⟨?_, ?_, ?_, ?_, ?_, ?_, rfl⟩
    · unfold runFindAll; cases cany.endpoint <;> rfl
    · unfold runFindById; cases cany.endpoint <;> rfl
    · rfl
    · unfold runUpdate runFindById
      cases getBySelfLink wany.cache object.self <;> cases cany.endpoint <;> rfl
    · unfold runCreate; cases cany.endpoint <;> rfl
    · unfold runDelete; cases cany.endpoint <;> rfl
  · unfold runFindAll
    rw [hep]
    simp only [terminalOf]
    exact congrArg some (terminal_failed_of_fresh w.tracker requestId
      (getFindAllHref ep options) c.transport c.deser h1 hid hfail)
  · unfold runFindById
    rw [hep]
    simp only [terminalOf]
    exact congrArg some (terminal_failed_of_fresh w.tracker requestId
      (getIDHref ep objId) c.transport c.deser h2 hid hfail)
  · unfold runFindByHref
    simp only [terminalOf]
    exact congrArg some (terminal_failed_of_fresh w.tracker requestId
      flink c.transport c.deser h3 hid hfail)
  · unfold runCreate
    rw [hep]
    simp only [terminalOf]
    exact congrArg some (terminal_failed_of_fresh w.tracker requestId
      ep c.transport c.deser h4 hid hfail)
  · unfold runDelete
    rw [hep]
    simp only [boolTerminalOf]
    have := deleteResult_configure_complete w.tracker (getIDHref ep dso.uuid)
      requestId c.transport h5 hid
    rw [hfail] at this
    exact congrArg some (by unfold deleteConfigure; exact this)

/-- Witness for C4: on an empty world, with a transport failure ("boom"), a
deserialization failure, and — for the totality conjunct — an endpoint
resolution miss, every operation returns `.ok` and the failure surfaces only
in the terminal stream states. -/
theorem public_ops_no_sync_throw_witness :
    (exceptOk (runFindAll ⟨none, ⟨false, some "boom", none⟩, Except.error "bad payload"⟩
        ⟨⟨[]⟩, []⟩ "req-1" {}) = true ∧
     exceptOk (runFindById ⟨none, ⟨false, some "boom", none⟩, Except.error "bad payload"⟩
        ⟨⟨[]⟩, []⟩ "req-1" "42") = true ∧
     exceptOk (runFindByHref ⟨none, ⟨false, some "boom", none⟩, Except.error "bad payload"⟩
        ⟨⟨[]⟩, []⟩ "req-1" "http://e/items/42") = true ∧
     exceptOk (runUpdate ⟨none, ⟨false, some "boom", none⟩, Except.error "bad payload"⟩
        ⟨⟨[]⟩, []⟩ "req-1" ⟨"http://e/items/42", "42", []⟩) = true ∧
     exceptOk (runCreate ⟨none, ⟨false, some "boom", none⟩, Except.error "bad payload"⟩
        ⟨⟨[]⟩, []⟩ "req-1" ⟨"http://e/items/42", "42", []⟩) = true ∧
     exceptOk (runDelete ⟨none, ⟨false, some "boom", none⟩, Except.error "bad payload"⟩
        ⟨⟨[]⟩, []⟩ "req-1" ⟨"http://e/items/42", "42", []⟩) = true ∧
     exceptOk (runPatch ⟨⟨[]⟩, []⟩ "http://e/items/42" []) = true) ∧
    terminalOf (runFindAll
        ⟨some "http://e/items", ⟨false, some "boom", none⟩, Except.error "bad payload"⟩
        ⟨⟨[]⟩, []⟩ "req-1" {})
      = some (some ⟨false, false, true, some "boom", none⟩) ∧
    terminalOf (runFindById
        ⟨some "http://e/items", ⟨false, some "boom", none⟩, Except.error "bad payload"⟩
        ⟨⟨[]⟩, []⟩ "req-1" "42")
      = some (some ⟨false, false, true, some "boom", none⟩) ∧
    terminalOf (runFindByHref
        ⟨some "http://e/items", ⟨false, some "boom", none⟩, Except.error "bad payload"⟩
        ⟨⟨[]⟩, []⟩ "req-1" "http://e/items/42")
      = some (some ⟨false, false, true, some "boom", none⟩) ∧
    terminalOf (runCreate
        ⟨some "http://e/items", ⟨false, some "boom", none⟩, Except.error "bad payload"⟩
        ⟨⟨[]⟩, []⟩ "req-1" ⟨"http://e/items/42", "42", []⟩)
      = some (some ⟨false, false, true, some "boom", none⟩) ∧
    boolTerminalOf (runDelete
        ⟨some "http://e/items", ⟨false, some "boom", none⟩, Except.error "bad payload"⟩
        ⟨⟨[]⟩, []⟩ "req-1" ⟨"http://e/items/42", "42", []⟩)
      = some (some false) := by
  have h := public_ops_no_sync_throw
    ⟨some "http://e/items", ⟨false, some "boom", none⟩, Except.error "bad payload"⟩
    ⟨⟨[]⟩, []⟩ "req-1" "42" "http://e/items/42" "http://e/items/42" "http://e/items"
    {} ⟨"http://e/items/42", "42", []⟩ ⟨"http://e/items/42", "42", []⟩ []
    rfl rfl (by simp) rfl rfl rfl rfl rfl
  exact ⟨h.1 ⟨none, ⟨false, some "boom", none⟩, Except.error "bad payload"⟩ ⟨⟨[]⟩, []⟩,
         h.2.1, h.2.2.1, h.2.2.2.1, h.2.2.2.2.1, h.2.2.2.2.2⟩

/-!
## `DataService.update` and the unconditional re-read

`update` ends with `return this.findById(object.uuid)` unconditionally
(part_001), also on the identical-versions path where the diff is empty: the
cache gains no patch, but the `findById` re-read configures a GET request
for the object's href, which dispatches whenever no acceptable request entry
exists for that address.
-/

/-- Completion leaves every entry with a different id untouched. -/
theorem completeRequest_map_skip (entries : List RequestEntry) (id : String)
    (resp : RestResponse) (hid : ∀ x ∈ entries, x.id ≠ id) :
    entries.map (fun e =>
      if e.id = id ∧ e.state = ReqState.pending then
        { e with
          state := if resp.isSuccessful then ReqState.responseSuccess resp
                   else ReqState.responseError resp,
          completed := true }
      else e) = entries := by
  induction entries with
  | nil => rfl
  | cons hd tl ih =>
    have hhd : ¬(hd.id = id ∧ hd.state = ReqState.pending) :=
      fun hco => hid hd (List.mem_cons_self hd tl) hco.1
    simp only [List.map_cons, if_neg hhd]
    rw [ih fun x hx => hid x (List.mem_cons_of_mem hd hx)]

/-- Completing a freshly appended pending entry yields exactly the old
entries plus the terminal entry. -/
theorem completeRequest_append_fresh (entries : List RequestEntry)
    (id address : String) (resp : RestResponse)
    (hid : ∀ x ∈ entries, x.id ≠ id) :
    completeRequest ⟨entries ++ [⟨id, address, .pending, false, false⟩]⟩ id resp
      = ⟨entries ++ [⟨id, address,
          if resp.isSuccessful then .responseSuccess resp
          else .responseError resp, true, false⟩]⟩ := by
  unfold completeRequest
  simp only [List.map_append, List.map_cons, List.map_nil]
  rw [completeRequest_map_skip entries id resp hid]
  simp

/-- C3 counterexample: at a concrete input where the cached old version and
the normalized new version serialize identically, no patch is added (the
object cache is returned unchanged), yet a dispatch occurs: `update`
unconditionally runs the `findById` re-read, whose `configure` on a fresh
tracker dispatches a GET for the object's href — the completed request entry
appears in the resulting tracker. This refutes the claim's "no dispatch
occurs" conclusion. -/
theorem update_identical_versions_dispatches :
    update [("http://e/items/42", ⟨[("title", JSValue.str "t")], "r0", []⟩)]
        ⟨"http://e/items/42", "42", [("title", JSValue.str "t")]⟩
      = [("http://e/items/42", ⟨[("title", JSValue.str "t")], "r0", []⟩)] ∧
    (configure ⟨[]⟩ "req-1" (getIDHref "http://e/items" "42")).dispatched = true ∧
    runUpdate ⟨some "http://e/items", ⟨true, none, some [("title", JSValue.str "t")]⟩,
        Except.ok [("title", JSValue.str "t")]⟩
      ⟨⟨[]⟩, [("http://e/items/42", ⟨[("title", JSValue.str "t")], "r0", []⟩)]⟩
      "req-1" ⟨"http://e/items/42", "42", [("title", JSValue.str "t")]⟩
      = .ok (⟨⟨[⟨"req-1", "http://e/items/42",
              .responseSuccess ⟨true, none, some [("title", JSValue.str "t")]⟩,
              true, false⟩]⟩,
             [("http://e/items/42", ⟨[("title", JSValue.str "t")], "r0", []⟩)]⟩,
           some ⟨false, true, false, none, some [("title", JSValue.str "t")]⟩) := by
  refine ⟨by decide, by decide, ?_⟩
  rfl

/-- C3 (amended): when exactly one field `title` differs between the cached
(materialized) old version and the normalized new version, `update` adds the
single `Replace` operation at path `/title` carrying the new value to the
cache entry for `object.self`; and when the old and new versions serialize
identically, no patch is added — the object cache is returned unchanged —
but `update`'s unconditional `findById` re-read still configures a GET for
the object's href, which dispatches whenever no acceptable request entry
exists for that address (the completed GET entry appears in the tracker). -/
theorem update_diff_patch_dispatch (st : ObjectCacheState) (object : DomainObject)
    (e : CacheEntry) (pre post : NormObj) (a b : JSValue)
    (hc : cacheLookup st object.self = some e)
    (hold : applyOps e.pendingPatches e.object = pre ++ ("title", a) :: post)
    (hnew : normalizeObject object = pre ++ ("title", b) :: post)
    (hab : a ≠ b) :
    cacheLookup (update st object) object.self
      = some { e with pendingPatches :=
          e.pendingPatches ++ [⟨.replace, "/title", some b⟩] } ∧
    (∀ (object2 : DomainObject) (c2 : Collaborators) (tr : TrackerState)
        (ep2 id2 : String),
      getBySelfLink st object2.self = some (normalizeObject object2) →
      c2.endpoint = some ep2 →
      findExisting tr (getIDHref ep2 object2.uuid) = none →
      (∀ x ∈ tr.entries, x.id ≠ id2) →
      update st object2 = st ∧
      (configure tr id2 (getIDHref ep2 object2.uuid)).dispatched = true ∧
      runUpdate c2 ⟨tr, st⟩ id2 object2
        = .ok (⟨⟨tr.entries ++ [⟨id2, getIDHref ep2 object2.uuid,
                  if c2.transport.isSuccessful then .responseSuccess c2.transport
                  else .responseError c2.transport, true, false⟩]⟩, st⟩,
               some (buildRemoteData
                 ⟨id2, getIDHref ep2 object2.uuid,
                  if c2.transport.isSuccessful then .responseSuccess c2.transport
                  else .responseError c2.transport, true, false⟩ c2.deser))) := by
  constructor
  · have hget : getBySelfLink st object.self
        = some (pre ++ ("title", a) :: post) := by
      unfold getBySelfLink
      rw [hc]
      simp [hold]
    have hdiff := diff_single_field pre post a b hab
    unfold update
    rw [hget]
    simp only [hnew, hdiff, List.isEmpty_cons, if_false, Bool.false_eq_true]
    unfold addPatch
    rw [hc]
    exact cacheLookup_cacheSet_self object.self _ st
  · intro object2 c2 tr ep2 id2 h2 hep2 hfr hid2
    have hupd : update st object2 = st := by
      unfold update
      rw [h2]
      simp [diff_self]
    have hconf : configure tr id2 (getIDHref ep2 object2.uuid)
        = ⟨⟨tr.entries ++ [⟨id2, getIDHref ep2 object2.uuid, .pending, false, false⟩]⟩,
           true, ⟨id2, getIDHref ep2 object2.uuid, .pending, false, false⟩⟩ := by
      unfold configure
      rw [hfr]
    refine ⟨hupd, by rw [hconf], ?_⟩
    have hcomp := completeRequest_append_fresh tr.entries id2
      (getIDHref ep2 object2.uuid) c2.transport hid2
    have hgot := getById_append_fresh tr.entries
      ⟨id2, getIDHref ep2 object2.uuid,
       if c2.transport.isSuccessful then .responseSuccess c2.transport
       else .responseError c2.transport, true, false⟩
      (fun x hx => hid2 x hx)
    simp only [runUpdate, h2, hupd, runFindById, hep2, hconf, hcomp, hgot,
      Option.map_some']

/-- Witness for C3 (amended): a one-entry cache whose `title` changes from
"old" to "new" for the patch conjunct; the identical-versions conjunct is
exercised on the same cache with a fresh tracker, where the re-read's GET
dispatches and completes. -/
theorem update_diff_patch_dispatch_witness :
    cacheLookup
      (update [("http://e/r/1", ⟨[("title", JSValue.str "old"),
                                  ("uuid", JSValue.str "42")], "r0", []⟩)]
        ⟨"http://e/r/1", "42",
         [("title", JSValue.str "new"), ("uuid", JSValue.str "42")]⟩)
      "http://e/r/1"
      = some ⟨[("title", JSValue.str "old"), ("uuid", JSValue.str "42")], "r0",
              [⟨.replace, "/title", some (JSValue.str "new")⟩]⟩ ∧
    (update [("http://e/r/1", ⟨[("title", JSValue.str "old"),
                                ("uuid", JSValue.str "42")], "r0", []⟩)]
        ⟨"http://e/r/1", "42",
         [("title", JSValue.str "old"), ("uuid", JSValue.str "42")]⟩
      = [("http://e/r/1", ⟨[("title", JSValue.str "old"),
                            ("uuid", JSValue.str "42")], "r0", []⟩)] ∧
     (configure ⟨[]⟩ "req-7" (getIDHref "http://e" "42")).dispatched = true ∧
     runUpdate ⟨some "http://e", ⟨true, none, none⟩, Except.ok []⟩
        ⟨⟨[]⟩, [("http://e/r/1", ⟨[("title", JSValue.str "old"),
                                   ("uuid", JSValue.str "42")], "r0", []⟩)]⟩
        "req-7"
        ⟨"http://e/r/1", "42",
         [("title", JSValue.str "old"), ("uuid", JSValue.str "42")]⟩
       = .ok (⟨⟨[⟨"req-7", getIDHref "http://e" "42",
                 .responseSuccess ⟨true, none, none⟩, true, false⟩]⟩,
               [("http://e/r/1", ⟨[("title", JSValue.str "old"),
                                   ("uuid", JSValue.str "42")], "r0", []⟩)]⟩,
              some ⟨false, true, false, none, some []⟩)) := by
  have h := update_diff_patch_dispatch
    [("http://e/r/1", ⟨[("title", JSValue.str "old"),
                        ("uuid", JSValue.str "42")], "r0", []⟩)]
    ⟨"http://e/r/1", "42",
     [("title", JSValue.str "new"), ("uuid", JSValue.str "42")]⟩
    ⟨[("title", JSValue.str "old"), ("uuid", JSValue.str "42")], "r0", []⟩
    [] [("uuid", JSValue.str "42")] (JSValue.str "old") (JSValue.str "new")
    (by decide) (by decide) (by decide) (by decide)
  exact ⟨h.1, h.2
    ⟨"http://e/r/1", "42",
     [("title", JSValue.str "old"), ("uuid", JSValue.str "42")]⟩
    ⟨some "http://e", ⟨true, none, none⟩, Except.ok []⟩
    ⟨[]⟩ "http://e" "req-7" (by decide) rfl (by decide) (by simp)⟩
